import Mathlib

/-!
Verification of the forest VPN control-plane daemon (forestd) and the
client-side entitlement gate, as a shallow embedding of the Go sources.

Embedding conventions:
* Go machine integers are modelled as `Int`/`Nat`; the `time.Duration`
  saturation of `Time.Sub` is modelled explicitly.
* Go float64 expressions (`Duration.Hours`, `Duration.Minutes`) are
  modelled by their exact rational values; the decision points proved
  below are far from any float64 rounding boundary.
* The per-connection handler loop of forestd is modelled one iteration
  at a time, in the state a fresh connection has at its first command
  (the `command` variable is nil, `knownActions = [connect, disconnect]`).
-/

namespace Forest

/- ## Framing and token parsing (src/forestd/main.go) -/

/-- Modelled from the spec: the reserved sentinel payload that signals a
client-initiated disconnect (spec section 6). The file of the repository
defining this constant is absent from src; its concrete text is modelled
here as "QUIT". The claims settled below depend only on it being distinct
from ordinary command payloads. -/
def QUIT_SIGN : String := "QUIT"

/-- One field-splitting step of Go strings.Fields: split the character
list around runs of whitespace, dropping empty fields. The accumulator
holds the characters of the field currently being read, reversed.
Whitespace is modelled by Char.isWhitespace (space, tab, CR, LF); the
extra Unicode space classes recognised by Go do not occur in any input
considered here. -/
def goFieldsAux : List Char → List Char → List (List Char)
  | [], acc => if acc.isEmpty then [] else [acc.reverse]
  | c :: cs, acc =>
    if c.isWhitespace then
      if acc.isEmpty then goFieldsAux cs []
      else acc.reverse :: goFieldsAux cs []
    else goFieldsAux cs (c :: acc)

/-- Go strings.Fields(s): the whitespace-separated tokens of s. -/
def goFields (s : String) : List String :=
  (goFieldsAux s.toList []).map fun l => String.mk l

/-- Does sub occur as a contiguous run inside l? -/
def listHasInfix : List Char → List Char → Bool
  | sub, [] => sub.isEmpty
  | sub, c :: rest => List.isPrefixOf sub (c :: rest) || listHasInfix sub rest

/-- Go strings.Contains(s, sub): sub occurs as a contiguous substring of s. -/
def goContains (s sub : String) : Bool :=
  listHasInfix sub.toList s.toList

/-- strings.Join(knownActions, "") as evaluated on the first loop
iteration of handleRequest, where knownActions = [connect, disconnect]
(src/forestd/main.go:56,62). -/
def KNOWN_JOINED : String := "connectdisconnect"

/-- An external process invocation performed by the daemon. -/
inductive Invocation
  | wgQuickUp (config : String)
  | wgQuickDown (config : String)
  | wgShow
deriving DecidableEq

/-- Outcome of dispatching one non-sentinel command frame, in the state a
fresh connection has at its first command. -/
inductive DispatchResult
  /-- An external tool is invoked; its mapped status is then written back. -/
  | exec (call : Invocation)
  /-- status is set to -1 and written back; no external process runs. -/
  | respondError
  /-- The substring check passed but neither equality matched, so the nil
  command pointer is dereferenced at command.String(): the goroutine
  panics (src/forestd/main.go:73). -/
  | panicNilCmd
  /-- strings.Fields returned no tokens and request[0] is indexed out of
  bounds (src/forestd/main.go:57-58): the goroutine panics. -/
  | panicIndexOOB
deriving DecidableEq

/-- Does the dispatch outcome start an external process? -/
def DispatchResult.invokesExternal : DispatchResult → Bool
  | .exec _ => true
  | _ => false

/-- Does the connection survive this command and keep serving the loop?
A panic tears down the goroutine (and, in Go, the whole process). -/
def DispatchResult.connectionContinues : DispatchResult → Bool
  | .exec _ => true
  | .respondError => true
  | .panicNilCmd => false
  | .panicIndexOOB => false

/-- Dispatch of one token list, translated from handleRequest
(src/forestd/main.go:56-80) at the first loop iteration: request[0] is
the action; with a second token present and the action a substring of
the joined known actions, equality against "connect"/"disconnect"
selects the wg-quick invocation, any other such action dereferences the
nil command; otherwise exactly "status" probes wg show and anything else
answers -1. -/
def dispatchTokens : List String → DispatchResult
  | [] => .panicIndexOOB
  | [action] =>
    if action = "status" then .exec .wgShow else .respondError
  | action :: config :: _ =>
    if goContains KNOWN_JOINED action then
      if action = "connect" then .exec (.wgQuickUp config)
      else if action = "disconnect" then .exec (.wgQuickDown config)
      else .panicNilCmd
    else if action = "status" then .exec .wgShow
    else .respondError

/-- Dispatch of one raw frame payload (first loop iteration). -/
def dispatchFirst (content : String) : DispatchResult :=
  dispatchTokens (goFields content)

/-- The kind of error a frame decode can fail with (spec section 4.2). -/
inductive ReadErr
  | recoverable
  | unrecoverable
deriving DecidableEq

/-- Control outcome of one iteration of the handleRequest loop. -/
inductive IterResult
  | closeAndReturn
  | continueWith (d : DispatchResult)
deriving DecidableEq

/-- One iteration of the handleRequest read loop
(src/forestd/main.go:44-90): a decode error, when present, is only
logged (lines 47-49) and control never branches on it; the loop leaves
only on the disconnect sentinel (lines 51-54), every other content is
dispatched. -/
def handleIter (content : String) (_e : Option ReadErr) : IterResult :=
  if content = QUIT_SIGN then .closeAndReturn
  else .continueWith (dispatchFirst content)

/- ## Process runner (src/forestd/main.go:112-127) -/

/-- The error command.Wait() can return: an ExitError carrying the exit
status of the process, or any other failure (in particular the error
Wait reports when Start already failed). -/
inductive WaitErr
  | exitErr (code : Int)
  | otherFailure
deriving DecidableEq

/-- Translated from execute (src/forestd/main.go:112-127). A Start error
is only logged; a Wait error that is an ExitError returns its exit
status; any other Wait error is logged and control falls through to
return 0. In Go, startFailed = true forces waitErr = some otherFailure,
since Wait on a never-started command fails with a plain error. -/
def execute (_startFailed : Bool) (waitErr : Option WaitErr) : Int :=
  match waitErr with
  | some (.exitErr code) => code
  | some .otherFailure => 0
  | none => 0

/-- Translated from isActiveWireGuard (src/forestd/main.go:100-107):
non-empty captured stdout of wg show means connected. An execution error
leaves stdout empty, hence 0. -/
def isActiveWireGuard (stdoutLen : Nat) : Int :=
  if stdoutLen > 0 then 1 else 0

/- ## Response encoding (src/forestd/main.go:82-85) -/

/-- Go conversion of a (signed) integer to uint64, as applied by fmt to
the argument of the %c verb. -/
def uint64Of (v : Int) : Nat :=
  (v % (2 ^ 64)).toNat

/-- UTF-8 encoding of a code point below 0x110000. -/
def utf8Bytes (r : Nat) : List Nat :=
  if r < 0x80 then [r]
  else if r < 0x800 then [0xC0 + r / 64, 0x80 + r % 64]
  else if r < 0x10000 then
    [0xE0 + r / 4096, 0x80 + (r / 64) % 64, 0x80 + r % 64]
  else
    [0xF0 + r / 262144, 0x80 + (r / 4096) % 64, 0x80 + (r / 64) % 64,
      0x80 + r % 64]

/-- utf8.EncodeRune: surrogates and out-of-range values encode as the
replacement character U+FFFD. -/
def encodeRune (r : Nat) : List Nat :=
  if r > 0x10FFFF ∨ (0xD800 ≤ r ∧ r ≤ 0xDFFF) then utf8Bytes 0xFFFD
  else utf8Bytes r

/-- The bytes fmt.Sprintf produces for one %c verb applied to an integer
value: the value is converted to uint64, clamped to the replacement
character when above the maximal rune, and UTF-8 encoded. -/
def formatC (v : Int) : List Nat :=
  if uint64Of v > 0x10FFFF then encodeRune 0xFFFD
  else encodeRune (uint64Of v)

/-- The payload bytes of the response frame written for a status value:
the first %c of the Sprintf at src/forestd/main.go:84. The delimiter
byte follows as the second %c and is not part of the payload. -/
def responsePayload (status : Int) : List Nat :=
  formatC status

/- ## Daemon concurrency (src/forestd/main.go:21-33, 44-91) -/

/-- Progress of one connection goroutine through the external process
call of a mutating command (the execute call at src/forestd/main.go:75). -/
inductive Phase
  | pending
  | running
  | finished
deriving DecidableEq

/-- Joint state of two connection goroutines, each handling one mutating
command. -/
structure DaemonState where
  g1 : Phase
  g2 : Phase
deriving DecidableEq

/-- Interleaving semantics of the daemon: main accepts each connection
and serves it on its own goroutine (go handleRequest(conn),
src/forestd/main.go:32). handleRequest contains no lock or any other
synchronization - the sync package is never imported - so each goroutine
enters and leaves its external process call independently of the other. -/
inductive DaemonStep : DaemonState → DaemonState → Prop
  | enter1 (p : Phase) : DaemonStep ⟨.pending, p⟩ ⟨.running, p⟩
  | leave1 (p : Phase) : DaemonStep ⟨.running, p⟩ ⟨.finished, p⟩
  | enter2 (p : Phase) : DaemonStep ⟨p, .pending⟩ ⟨p, .running⟩
  | leave2 (p : Phase) : DaemonStep ⟨p, .running⟩ ⟨p, .finished⟩

/-- Reachability of daemon states under arbitrary goroutine
interleaving. -/
def DaemonReachable : DaemonState → DaemonState → Prop :=
  Relation.ReflTransGen DaemonStep

/-- Both goroutines are inside their external process call at the same
instant. -/
def overlapping (s : DaemonState) : Prop :=
  s.g1 = Phase.running ∧ s.g2 = Phase.running

/- ## Location classification (src/src/actions/location.go) -/

def Falkenstein : String := "b134d679-8697-4dc6-b629-c4c189392fca"

def Helsinki : String := "7fc5b17c-eddf-413f-8b37-9d36eb5e33ec"

/-- Translated from IsPremiumLocation (src/src/actions/location.go:160-168):
a switch on the location id; Helsinki and Falkenstein are not premium,
the empty id and every other id are premium. -/
def IsPremiumLocation (locId : String) : Bool :=
  if locId = Helsinki ∨ locId = Falkenstein then false
  else if locId = "" then true
  else true

/- ## Entitlement gate (src/src/main.go:227-251, state up action) -/

def PREMIUM_BUNDLE : String := "com.forestvpn.premium"

def FREEMIUM_BUNDLE : String := "com.forestvpn.freemium"

/-- Go time.Time.Sub: the difference saturates at the bounds of the
int64 nanosecond Duration type. Times are modelled as nanoseconds since
the epoch. -/
def timeSub (t u : Int) : Int :=
  max (-(9223372036854775808 : Int)) (min 9223372036854775807 (t - u))

/-- Truncation of a rational toward zero, the semantics of the Go
conversions int64(x) and int(x) applied to a float64. -/
def truncQ (q : ℚ) : Int :=
  if q < 0 then -⌊-q⌋ else ⌊q⌋

/-- Exact value of Duration.Hours() for a duration of d nanoseconds. -/
def hoursQ (d : Int) : ℚ := (d : ℚ) / 3600000000000

/-- Exact value of Duration.Minutes() for a duration of d nanoseconds. -/
def minutesQ (d : Int) : ℚ := (d : ℚ) / 60000000000

/-- days := int64(left.Hours() / 24) at src/src/main.go:232. -/
def daysOf (d : Int) : Int := truncQ (hoursQ d / 24)

/-- A warning printed by the state up action before proceeding. -/
inductive UpWarning
  | lessThan5Minutes
  | endsWithin3Days
deriving DecidableEq

/-- Outcome of the entitlement region of the state up action. -/
inductive UpOutcome
  /-- Prints the location-unavailable message and calls os.Exit(1)
  (src/src/main.go:236-238) before any bring-up is sent. -/
  | deniedLocationUnavailable
  /-- Prints the session-over message and calls os.Exit(1)
  (src/src/main.go:240-242) before any bring-up is sent. -/
  | deniedTrialOver
  /-- Control reaches state.SetUp (src/src/main.go:251), after printing
  the warning when one is given. -/
  | allowed (warning : Option UpWarning)
deriving DecidableEq

/-- Translated from the entitlement region of the state up action
(src/src/main.go:229-251): left = exp.Sub(now);
days = int64(left.Hours()/24); expiry is tested with now.After(exp);
the premium-location deny distinguishes on IsPremiumLocation and the
premium bundle id; then the freemium trial-minutes warning; then the
3-days warning with condition
(days == 3 && left.Hours() == 0) || (days < 3 && premium bundle). -/
def stateUp (now exp : Int) (bid locId : String) : UpOutcome :=
  if exp < now then
    if IsPremiumLocation locId ∧ bid = PREMIUM_BUNDLE then
      .deniedLocationUnavailable
    else .deniedTrialOver
  else if bid = FREEMIUM_BUNDLE ∧ truncQ (minutesQ (timeSub exp now)) < 5 then
    .allowed (some .lessThan5Minutes)
  else if (daysOf (timeSub exp now) = 3 ∧ hoursQ (timeSub exp now) = 0) ∨
      (daysOf (timeSub exp now) < 3 ∧ bid = PREMIUM_BUNDLE) then
    .allowed (some .endsWithin3Days)
  else .allowed none

/-- Whether the outcome reaches the bring-up request state.SetUp. -/
def UpOutcome.bringUpSent : UpOutcome → Bool
  | .allowed _ => true
  | _ => false

/-- The exit code of os.Exit on the deny paths; none when control
proceeds past the gate. -/
def UpOutcome.exitCode : UpOutcome → Option Nat
  | .allowed _ => none
  | _ => some 1

end Forest


namespace Forest

/- ## Helper lemmas -/

theorem goFieldsAux_eq_nil (cs : List Char) : ∀ acc : List Char,
    (goFieldsAux cs acc = [] ↔ acc = [] ∧ ∀ c ∈ cs, c.isWhitespace) := by
  induction cs with
  | nil =>
    intro acc
    cases acc with
    | nil => simp [goFieldsAux]
    | cons a t => simp [goFieldsAux]
  | cons c cs ih =>
    intro acc
    unfold goFieldsAux
    by_cases hw : c.isWhitespace
    · rw [if_pos hw]
      by_cases ha : acc.isEmpty
      · rw [if_pos ha]
        have hacc : acc = [] := by simpa using ha
        subst hacc
        rw [ih []]
        simp [hw]
      · rw [if_neg ha]
        have hacc : acc ≠ [] := by simpa using ha
        simp [hacc]
    · rw [if_neg hw]
      rw [ih (c :: acc)]
      simp [hw]

theorem dispatchTokens_oob_iff (ts : List String) :
    dispatchTokens ts = DispatchResult.panicIndexOOB ↔ ts = [] := by
  cases ts with
  | nil => simp [dispatchTokens]
  | cons a rest =>
    cases rest with
    | nil =>
      simp only [dispatchTokens]
      split_ifs <;> simp
    | cons b t =>
      simp only [dispatchTokens]
      split_ifs <;> simp

theorem hoursQ_eq_zero_iff (d : Int) : hoursQ d = 0 ↔ d = 0 := by
  unfold hoursQ
  rw [div_eq_zero_iff]
  norm_num

theorem daysOf_of_hoursQ_zero (d : Int) (h : hoursQ d = 0) : daysOf d = 0 := by
  unfold daysOf
  rw [h]
  norm_num [truncQ]

/- ## C1: serialization of mutating commands -/

/-- C1: the claim says external process executions of two bring-up or
bring-down commands on two connections can never overlap because a
daemon-wide execution lock serializes them. The code has no such lock:
handleRequest performs the execute call with no synchronization at all,
so the interleaving in which both goroutines are inside their external
process call at the same instant is reachable from the initial state. -/
theorem c1_mutations_can_overlap :
    DaemonReachable ⟨Phase.pending, Phase.pending⟩ ⟨Phase.running, Phase.running⟩ ∧
    overlapping ⟨Phase.running, Phase.running⟩ := by
  constructor
  · exact Relation.ReflTransGen.tail
      (Relation.ReflTransGen.single (DaemonStep.enter1 Phase.pending))
      (DaemonStep.enter2 Phase.running)
  · exact ⟨rfl, rfl⟩

/- ## C6: start failure of the external tool -/

/-- C6: when the external lifecycle tool cannot be started, execute only
logs the Start error; the subsequent Wait failure is not an ExitError,
so control falls through to return 0 - the same status as a clean exit,
and never the ERROR status -1. -/
theorem c6_start_failure_yields_zero :
    execute true (some WaitErr.otherFailure) = 0 ∧
    execute false none = 0 ∧
    execute true (some WaitErr.otherFailure) ≠ -1 := by
  refine ⟨rfl, rfl, by decide⟩

/- ## C10: premium location classification -/

/-- C10: IsPremiumLocation returns false exactly for the Helsinki and
Falkenstein UUIDs; every other id, the empty string included, is
classified premium. -/
theorem c10_premium_location_classification :
    (∀ locId : String,
      (IsPremiumLocation locId = false ↔ locId = Helsinki ∨ locId = Falkenstein)) ∧
    IsPremiumLocation "" = true := by
  constructor
  · intro locId
    unfold IsPremiumLocation
    split_ifs with h1 h2 <;> simp [h1]
  · decide

/- ## C3: response payload bytes -/

/-- C3 counterexample: the ERROR status -1 is not carried as the single
byte 255. fmt %c converts -1 to uint64, which exceeds the maximal rune,
so the payload is the three-byte UTF-8 replacement character; moreover a
tool exit status 2 is carried verbatim as byte 2, outside the claimed
closed set. -/
theorem c3_error_payload_cex :
    responsePayload (-1) = [0xEF, 0xBF, 0xBD] ∧
    responsePayload (-1) ≠ [255] ∧
    (responsePayload (-1)).length = 3 ∧
    responsePayload 2 = [2] := by decide

/-- C3 amended: the response payload is the UTF-8 encoding of the status
value as a character: every status in 0..127 (OK, CONNECTED, and small
tool exit codes) is the single byte of the same value; ERROR -1 becomes
the three replacement-character bytes EF BF BD rather than byte 255; an
exit code in 128..255 becomes two UTF-8 bytes. -/
theorem c3_amended_payload_encoding :
    (∀ n : Nat, n < 128 → responsePayload (n : Int) = [n]) ∧
    responsePayload (-1) = [0xEF, 0xBF, 0xBD] ∧
    (∀ n : Nat, 128 ≤ n → n < 256 →
      responsePayload (n : Int) = [0xC0 + n / 64, 0x80 + n % 64]) := by
  have hpow : (2 : Int) ^ 64 = 18446744073709551616 := by norm_num
  refine ⟨?_, by decide, ?_⟩
  · intro n hn
    unfold responsePayload formatC uint64Of encodeRune utf8Bytes
    rw [hpow]
    have h1 : ((n : Int) % 18446744073709551616).toNat = n := by omega
    rw [h1]
    rw [if_neg (by omega), if_neg (by omega), if_pos (by omega)]
  · intro n h1 h2
    unfold responsePayload formatC uint64Of encodeRune utf8Bytes
    rw [hpow]
    have hh : ((n : Int) % 18446744073709551616).toNat = n := by omega
    rw [hh]
    rw [if_neg (by omega), if_neg (by omega), if_neg (by omega), if_pos (by omega)]

/-- C3 amended witness: concrete instances of the encoding law. -/
theorem c3_amended_payload_encoding_witness :
    ((2 : Nat) < 128 ∧ responsePayload ((2 : Nat) : Int) = [2]) ∧
    ((128 : Nat) ≤ 200 ∧ (200 : Nat) < 256 ∧
      responsePayload ((200 : Nat) : Int) = [0xC3, 0x88]) :=
  ⟨⟨by decide, c3_amended_payload_encoding.1 2 (by decide)⟩,
    ⟨by decide, by decide,
      (c3_amended_payload_encoding.2.2 200 (by decide) (by decide)).trans (by decide)⟩⟩

end Forest

namespace Forest

/- ## C2: unknown verbs -/

/-- C2 counterexample: the token "onnect" is none of the three verbs,
yet with a second token present it passes the substring containment test
against "connectdisconnect", matches neither equality, and the nil
command pointer is dereferenced - a panic, not the ERROR response, and
the connection does not survive it. -/
theorem c2_unknown_verb_cex :
    dispatchFirst "onnect x" = DispatchResult.panicNilCmd ∧
    dispatchFirst "onnect x" ≠ DispatchResult.respondError ∧
    DispatchResult.connectionContinues DispatchResult.panicNilCmd = false := by
  decide

/-- C2 amended: on the first command of a connection, a frame whose
first token is none of the three verbs yields the ERROR status with no
external process and the connection stays open, provided the token also
fails the substring containment test against "connectdisconnect" or no
second token is present; an unknown token that passes the containment
test with a second token present instead panics on the nil command. -/
theorem c2_amended_unknown_verb (content action : String) (rest : List String)
    (hf : goFields content = action :: rest)
    (_hconn : action ≠ "connect") (_hdisc : action ≠ "disconnect")
    (hstat : action ≠ "status")
    (hsub : rest = [] ∨ goContains KNOWN_JOINED action = false) :
    dispatchFirst content = DispatchResult.respondError ∧
    (dispatchFirst content).invokesExternal = false ∧
    (dispatchFirst content).connectionContinues = true := by
  have hd : dispatchFirst content = DispatchResult.respondError := by
    unfold dispatchFirst
    rw [hf]
    rcases hsub with h | h
    · subst h
      simp [dispatchTokens, hstat]
    · cases rest with
      | nil => simp [dispatchTokens, hstat]
      | cons c t => simp [dispatchTokens, h, hstat]
  exact ⟨hd, by rw [hd]; rfl, by rw [hd]; rfl⟩

/-- C2 amended witness: the verb "frobnicate" gets the ERROR response. -/
theorem c2_amended_unknown_verb_witness :
    goFields "frobnicate" = ["frobnicate"] ∧
    dispatchFirst "frobnicate" = DispatchResult.respondError :=
  ⟨by decide, (c2_amended_unknown_verb "frobnicate" "frobnicate" []
    (by decide) (by decide) (by decide) (by decide) (Or.inl rfl)).1⟩

/- ## C8: mutating verb without a configuration identifier -/

/-- C8: a frame whose only token is connect or disconnect fails the
second-token test, falls through to the ERROR response, invokes no
external process, and the connection keeps serving. -/
theorem c8_mutating_verb_without_config (content verb : String)
    (hv : verb = "connect" ∨ verb = "disconnect")
    (hf : goFields content = [verb]) :
    dispatchFirst content = DispatchResult.respondError ∧
    (dispatchFirst content).invokesExternal = false ∧
    (dispatchFirst content).connectionContinues = true := by
  have hd : dispatchFirst content = DispatchResult.respondError := by
    unfold dispatchFirst
    rw [hf]
    rcases hv with h | h <;> subst h <;> decide
  exact ⟨hd, by rw [hd]; rfl, by rw [hd]; rfl⟩

/-- C8 witness: the bare frame "connect". -/
theorem c8_mutating_verb_without_config_witness :
    goFields "connect" = ["connect"] ∧
    dispatchFirst "connect" = DispatchResult.respondError :=
  ⟨by decide,
    (c8_mutating_verb_without_config "connect" "connect" (Or.inl rfl) (by decide)).1⟩

/- ## C9: totality of the parse step -/

/-- C9 counterexample: a whitespace-only payload splits into zero
tokens, and the indexing of the first token aborts out of bounds - the
parse step is not total. -/
theorem c9_empty_payload_cex :
    goFields " " = [] ∧
    dispatchFirst " " = DispatchResult.panicIndexOOB ∧
    DispatchResult.connectionContinues DispatchResult.panicIndexOOB = false := by
  decide

/-- C9 amended: dispatching aborts with the out-of-bounds index access
exactly when the payload splits into zero tokens, which happens exactly
when every character of the payload is whitespace; any payload with a
non-whitespace character dispatches without the out-of-bounds abort. -/
theorem c9_amended_parse_totality (content : String) :
    (dispatchFirst content = DispatchResult.panicIndexOOB ↔ goFields content = []) ∧
    (goFields content = [] ↔ ∀ c ∈ content.toList, c.isWhitespace) := by
  constructor
  · unfold dispatchFirst
    exact dispatchTokens_oob_iff (goFields content)
  · unfold goFields
    constructor
    · intro h
      have hx : goFieldsAux content.toList [] = [] := by
        cases hx : goFieldsAux content.toList [] with
        | nil => rfl
        | cons a t => rw [hx] at h; simp at h
      exact ((goFieldsAux_eq_nil content.toList []).mp hx).2
    · intro h
      rw [(goFieldsAux_eq_nil content.toList []).mpr ⟨rfl, h⟩]
      rfl

/- ## C7: decode error handling -/

/-- C7 counterexample: after a decode failure with an unrecoverable I/O
error the handler does not close the connection and return; the error is
only logged and the iteration proceeds to dispatch the returned content. -/
theorem c7_unrecoverable_error_cex :
    handleIter "status" (some ReadErr.unrecoverable) =
      IterResult.continueWith (DispatchResult.exec Invocation.wgShow) ∧
    handleIter "status" (some ReadErr.unrecoverable) ≠ IterResult.closeAndReturn := by
  decide

/-- C7 amended: a decode error of either kind is logged and the read
loop continues with the returned content; the handler closes the
connection and returns only on receipt of the disconnect sentinel,
never in response to the error kind. -/
theorem c7_amended_all_errors_continue (content : String) (e : Option ReadErr)
    (h : content ≠ QUIT_SIGN) :
    handleIter content e = IterResult.continueWith (dispatchFirst content) ∧
    handleIter QUIT_SIGN e = IterResult.closeAndReturn := by
  constructor
  · unfold handleIter
    rw [if_neg h]
  · unfold handleIter
    rw [if_pos rfl]

/-- C7 amended witness: an ordinary payload under an unrecoverable error. -/
theorem c7_amended_all_errors_continue_witness :
    ("x" ≠ QUIT_SIGN) ∧
    handleIter "x" (some ReadErr.unrecoverable) =
      IterResult.continueWith (dispatchFirst "x") :=
  ⟨by decide,
    (c7_amended_all_errors_continue "x" (some ReadErr.unrecoverable) (by decide)).1⟩

end Forest

namespace Forest

/- ## C4: expired billing records are denied -/

/-- C4: with now strictly after the expiry timestamp, the gate always
denies: the location-unavailable reason when the target location is
premium and the bundle is the premium bundle, the trial-session-over
reason otherwise; in both cases control calls os.Exit(1) before any
bring-up request is issued. -/
theorem c4_expired_always_denied (now exp : Int) (bid locId : String)
    (h : exp < now) :
    (stateUp now exp bid locId =
      if IsPremiumLocation locId ∧ bid = PREMIUM_BUNDLE then
        UpOutcome.deniedLocationUnavailable
      else UpOutcome.deniedTrialOver) ∧
    (stateUp now exp bid locId).bringUpSent = false ∧
    (stateUp now exp bid locId).exitCode = some 1 := by
  have hs : stateUp now exp bid locId =
      if IsPremiumLocation locId ∧ bid = PREMIUM_BUNDLE then
        UpOutcome.deniedLocationUnavailable
      else UpOutcome.deniedTrialOver := by
    unfold stateUp
    rw [if_pos h]
  refine ⟨hs, ?_, ?_⟩ <;> rw [hs] <;> split_ifs <;> rfl

/-- C4 witness: an expired premium bundle on a premium location, and the
projections showing no bring-up and a non-zero exit. -/
theorem c4_expired_always_denied_witness :
    ((0 : Int) < 1) ∧
    (stateUp 1 0 PREMIUM_BUNDLE "loc-x").bringUpSent = false ∧
    (stateUp 1 0 PREMIUM_BUNDLE "loc-x").exitCode = some 1 :=
  ⟨by decide,
    (c4_expired_always_denied 1 0 PREMIUM_BUNDLE "loc-x" (by decide)).2.1,
    (c4_expired_always_denied 1 0 PREMIUM_BUNDLE "loc-x" (by decide)).2.2⟩

/- ## C5: the 3-days warning -/

/-- C5 counterexample: a premium bundle with exactly 3 whole days
remaining (days-remaining = 3, zero sub-day remainder) is allowed with
NO warning: the code tests left.Hours() == 0, which at 72 hours is
false, so the first disjunct of the warning condition cannot fire. The
claim predicts the warning here. -/
theorem c5_three_whole_days_no_warning_cex :
    (259200000000000 : Int) = 3 * 86400000000000 ∧
    stateUp 0 259200000000000 PREMIUM_BUNDLE "loc-y" = UpOutcome.allowed none := by
  have hts : timeSub 259200000000000 0 = 259200000000000 := by
    unfold timeSub
    rw [min_eq_right (by norm_num), max_eq_right (by norm_num)]
    norm_num
  have hdays : daysOf 259200000000000 = 3 := by
    unfold daysOf hoursQ truncQ
    rw [if_neg (by norm_num)]
    norm_num
  have hh : hoursQ 259200000000000 = 72 := by
    unfold hoursQ
    norm_num
  refine ⟨by norm_num, ?_⟩
  unfold stateUp
  rw [hts]
  rw [if_neg (show ¬ (259200000000000 : Int) < 0 by norm_num)]
  rw [if_neg (fun hc => absurd hc.1 (by decide))]
  have hc : ¬ ((daysOf 259200000000000 = 3 ∧ hoursQ 259200000000000 = 0) ∨
      (daysOf 259200000000000 < 3 ∧ PREMIUM_BUNDLE = PREMIUM_BUNDLE)) := by
    rintro (⟨-, h0⟩ | ⟨hlt, -⟩)
    · rw [hh] at h0
      norm_num at h0
    · rw [hdays] at hlt
      exact absurd hlt (by norm_num)
  rw [if_neg hc]

/-- C5 amended: for a non-expired billing record the gate always allows,
and it emits the subscription-ends-within-3-days warning exactly when
days-remaining is below 3 and the bundle is the premium bundle. The
disjunct (days == 3 with left.Hours() == 0) of the code is
unsatisfiable, since zero total hours forces days = 0; in particular a
premium bundle with 2 whole days remaining is allowed with the warning
(see the witness). -/
theorem c5_amended_warning_iff (now exp : Int) (bid locId : String)
    (h : now ≤ exp) :
    ((stateUp now exp bid locId = UpOutcome.allowed (some UpWarning.endsWithin3Days)) ↔
      (daysOf (timeSub exp now) < 3 ∧ bid = PREMIUM_BUNDLE)) ∧
    (stateUp now exp bid locId).bringUpSent = true := by
  have hna : ¬ exp < now := not_lt.mpr h
  constructor
  · unfold stateUp
    rw [if_neg hna]
    by_cases h2 : bid = FREEMIUM_BUNDLE ∧ truncQ (minutesQ (timeSub exp now)) < 5
    · rw [if_pos h2]
      constructor
      · intro hcontra
        exact absurd hcontra (by decide)
      · rintro ⟨-, hbid⟩
        rw [hbid] at h2
        exact absurd h2.1 (by decide)
    · rw [if_neg h2]
      by_cases h3 : (daysOf (timeSub exp now) = 3 ∧ hoursQ (timeSub exp now) = 0) ∨
          (daysOf (timeSub exp now) < 3 ∧ bid = PREMIUM_BUNDLE)
      · rw [if_pos h3]
        constructor
        · intro _
          rcases h3 with ⟨hd3, hh0⟩ | hr
          · rw [daysOf_of_hoursQ_zero _ hh0] at hd3
            exact absurd hd3 (by norm_num)
          · exact hr
        · intro _
          rfl
      · rw [if_neg h3]
        constructor
        · intro hcontra
          exact absurd hcontra (by decide)
        · intro hr
          exact absurd (Or.inr hr) h3
  · unfold stateUp
    rw [if_neg hna]
    split_ifs <;> rfl

/-- C5 amended witness: a premium bundle with exactly 2 whole days
remaining is allowed with the 3-days warning. -/
theorem c5_amended_warning_iff_witness :
    ((0 : Int) ≤ 172800000000000) ∧
    stateUp 0 172800000000000 PREMIUM_BUNDLE "loc-z" =
      UpOutcome.allowed (some UpWarning.endsWithin3Days) := by
  refine ⟨by norm_num, ?_⟩
  apply (c5_amended_warning_iff 0 172800000000000 PREMIUM_BUNDLE "loc-z"
    (by norm_num)).1.mpr
  refine ⟨?_, rfl⟩
  have hts : timeSub 172800000000000 0 = 172800000000000 := by
    unfold timeSub
    rw [min_eq_right (by norm_num), max_eq_right (by norm_num)]
    norm_num
  rw [hts]
  have hd : daysOf 172800000000000 = 2 := by
    unfold daysOf hoursQ truncQ
    rw [if_neg (by norm_num)]
    norm_num
  rw [hd]
  norm_num

end Forest
